import Mathlib

/-!
Verification development for the yield-optimizer repository.

The definitions below are a shallow embedding of the repository's decision
and transaction-construction code:

* `compareYields` embeds `compareYields` from `src/yieldMonitor.ts`
  (lines 18-78).  The four on-chain reads (`getAaveAPY`, `getCompoundAPY`,
  `getAaveBalance`, `getCompoundBalance`) and `Date.now()` become explicit
  parameters; the body mirrors lines 41-77 of the source.
* `generateRebalanceTransactions` and `generatePlaceholderTransaction`
  embed the functions of the same names from
  `src/triggerx-yield-optimizer.ts`.
* `getAaveAPY`, `getAaveBalance` embed `src/contracts/aave.ts`;
  `getCompoundAPY`, `getCompoundBalance` embed the compound adapter.
  JavaScript exception flow is made explicit with `Except`.
* `encodeSolTx`, `encodeBatch`, `wrapMultiSend` and
  `buildAaveSupplyMultiSend` embed the MultiSend packed encoding of
  `foundry/script/SafeModuleAaveSupply.s.sol` (`_buildAaveSupplyMultiSend`,
  lines 183-237); `decodeBatch` is the matching parser for the packed
  format.
-/

/-- Protocol tag values used by the monitor.  In the TypeScript source
`betterProtocol` ranges over the string union `'aave' | 'compound' | 'equal'`
and `currentProtocol` over `'aave' | 'compound' | 'none'`; a single type with
the four string values models both unions, as the source compares them with
`!==` directly. -/
inductive ProtoTag
  | aave
  | compound
  | equal
  | none
deriving DecidableEq, Repr

/-- Label swap on protocol tags: exchanges the two protocol labels and
leaves `equal` and `none` fixed. -/
def ProtoTag.swap : ProtoTag → ProtoTag
  | ProtoTag.aave => ProtoTag.compound
  | ProtoTag.compound => ProtoTag.aave
  | ProtoTag.equal => ProtoTag.equal
  | ProtoTag.none => ProtoTag.none

/-- The `YieldComparison` record returned by `compareYields`
(`src/yieldMonitor.ts` lines 8-16).  Rates are integer basis points
(`Math.floor` results, hence `Nat`); balances in the source are `bigint`. -/
structure YieldComparison where
  timestamp : Nat
  aaveAPY : Nat
  compoundAPY : Nat
  difference : Nat
  betterProtocol : ProtoTag
  shouldMove : Bool
  currentProtocol : ProtoTag
deriving DecidableEq, Repr

/-- Embedding of `compareYields` (`src/yieldMonitor.ts` lines 18-78).
Parameters are the values the source obtains from its environment and the
four awaited reads: `now` is `Date.now()`, `aaveAPY`/`compoundAPY` the two
adapter rates (basis points), `aaveBalance`/`compoundBalance` the two Safe
positions, and `minYieldDifference` the parsed `MIN_YIELD_DIFFERENCE`
threshold (kept as `Int`, since `parseInt` may yield a negative number).
The body mirrors lines 41-77: current-position classification with Aave
checked first, `difference = Math.abs(aaveAPY - compoundAPY)`, better
protocol by strict comparison, and the four-way conjunction for
`shouldMove`. -/
def compareYields (now aaveAPY compoundAPY aaveBalance compoundBalance : Nat)
    (minYieldDifference : Int) : YieldComparison :=
  let currentProtocol : ProtoTag :=
    if aaveBalance > 0 then ProtoTag.aave
    else if compoundBalance > 0 then ProtoTag.compound
    else ProtoTag.none
  let difference : Nat := ((aaveAPY : Int) - (compoundAPY : Int)).natAbs
  let betterProtocol : ProtoTag :=
    if aaveAPY > compoundAPY then ProtoTag.aave
    else if compoundAPY > aaveAPY then ProtoTag.compound
    else ProtoTag.equal
  let shouldMove : Bool :=
    decide ((difference : Int) ≥ minYieldDifference)
      && decide (betterProtocol ≠ ProtoTag.equal)
      && decide (currentProtocol ≠ ProtoTag.none)
      && decide (currentProtocol ≠ betterProtocol)
  { timestamp := now
    aaveAPY := aaveAPY
    compoundAPY := compoundAPY
    difference := difference
    betterProtocol := betterProtocol
    shouldMove := shouldMove
    currentProtocol := currentProtocol }

lemma compareYields_difference (now a c b1 b2 : Nat) (t : Int) :
    (compareYields now a c b1 b2 t).difference = ((a : Int) - (c : Int)).natAbs := rfl

lemma compareYields_betterProtocol (now a c b1 b2 : Nat) (t : Int) :
    (compareYields now a c b1 b2 t).betterProtocol =
      (if a > c then ProtoTag.aave
       else if c > a then ProtoTag.compound
       else ProtoTag.equal) := rfl

lemma compareYields_currentProtocol (now a c b1 b2 : Nat) (t : Int) :
    (compareYields now a c b1 b2 t).currentProtocol =
      (if b1 > 0 then ProtoTag.aave
       else if b2 > 0 then ProtoTag.compound
       else ProtoTag.none) := rfl

lemma compareYields_shouldMove (now a c b1 b2 : Nat) (t : Int) :
    (compareYields now a c b1 b2 t).shouldMove =
      (decide (((((a : Int) - (c : Int)).natAbs : Nat) : Int) ≥ t)
        && decide ((compareYields now a c b1 b2 t).betterProtocol ≠ ProtoTag.equal)
        && decide ((compareYields now a c b1 b2 t).currentProtocol ≠ ProtoTag.none)
        && decide ((compareYields now a c b1 b2 t).currentProtocol ≠
            (compareYields now a c b1 b2 t).betterProtocol)) := rfl

/-- C1: for every pair of non-negative integer rates, every pair of
non-negative balances and every threshold, the decision's `shouldMove` flag
is true if and only if the absolute rate difference is at least the
configured threshold, `betterProtocol` is not `equal`, `currentProtocol` is
not `none`, and `currentProtocol` differs from `betterProtocol`.  The
boundary is inclusive: a difference exactly equal to the threshold triggers
a move when the other three conditions hold. -/
theorem compareYields_shouldMove_iff (now a c b1 b2 : Nat) (t : Int) :
    (compareYields now a c b1 b2 t).shouldMove = true ↔
      (t ≤ ((((a : Int) - (c : Int)).natAbs : Nat) : Int)
        ∧ (compareYields now a c b1 b2 t).betterProtocol ≠ ProtoTag.equal
        ∧ (compareYields now a c b1 b2 t).currentProtocol ≠ ProtoTag.none
        ∧ (compareYields now a c b1 b2 t).currentProtocol ≠
            (compareYields now a c b1 b2 t).betterProtocol) := by
  rw [compareYields_shouldMove]
  simp [Bool.and_eq_true, decide_eq_true_iff, ge_iff_le, and_assoc]

/-- C7: the comparator classifies `currentProtocol` as Aave exactly when the
Aave balance is positive, as Compound exactly when the Aave balance is zero
and the Compound balance is positive, and as `none` exactly when both
balances are zero; in particular a wallet holding funds in both protocols is
classified as currently in Aave. -/
theorem compareYields_currentProtocol_classification
    (now a c b1 b2 : Nat) (t : Int) :
    ((compareYields now a c b1 b2 t).currentProtocol = ProtoTag.aave ↔ 0 < b1)
    ∧ ((compareYields now a c b1 b2 t).currentProtocol = ProtoTag.compound ↔
        (b1 = 0 ∧ 0 < b2))
    ∧ ((compareYields now a c b1 b2 t).currentProtocol = ProtoTag.none ↔
        (b1 = 0 ∧ b2 = 0)) := by
  rw [compareYields_currentProtocol]
  split_ifs with h1 h2 <;> simp <;> omega

/-- C8 counterexample: with rates 100/200 bp and one unit of funds in BOTH
protocols, swapping the two protocols' rates and positions does not flip the
`currentProtocol` label: both the original and the swapped run classify the
position as Aave (Aave is checked first), while a flipped label would be
Compound. -/
theorem compareYields_swap_currentProtocol_cex :
    (compareYields 0 100 200 1 1 0).currentProtocol = ProtoTag.aave
    ∧ (compareYields 0 200 100 1 1 0).currentProtocol = ProtoTag.aave
    ∧ ProtoTag.swap ProtoTag.aave ≠ ProtoTag.aave := by
  refine ⟨rfl, rfl, ?_⟩
  decide

/-- C8 (amended): the decision's `difference` field equals `|rateA - rateB|`
exactly and is invariant under swapping the two protocols' rates and
positions; `betterProtocol` always flips under the swap; and
`currentProtocol` flips under the swap provided the wallet does not hold
funds in both protocols at once (split positions are classified as Aave on
both sides by the Aave-first precedence rule). -/
theorem compareYields_swap_symmetry (now now' a c b1 b2 : Nat) (t : Int) :
    (compareYields now' c a b2 b1 t).difference =
        (compareYields now a c b1 b2 t).difference
    ∧ (compareYields now a c b1 b2 t).difference = ((a : Int) - (c : Int)).natAbs
    ∧ (compareYields now' c a b2 b1 t).betterProtocol =
        (compareYields now a c b1 b2 t).betterProtocol.swap
    ∧ (¬ (0 < b1 ∧ 0 < b2) →
        (compareYields now' c a b2 b1 t).currentProtocol =
          (compareYields now a c b1 b2 t).currentProtocol.swap) := by
  refine ⟨?_, rfl, ?_, ?_⟩
  · rw [compareYields_difference, compareYields_difference]
    omega
  · rw [compareYields_betterProtocol, compareYields_betterProtocol]
    split_ifs <;> simp [ProtoTag.swap] <;> omega
  · intro h
    rw [compareYields_currentProtocol, compareYields_currentProtocol]
    split_ifs <;> simp [ProtoTag.swap] <;> omega

/-- Default Aave V3 pool address used by the TypeScript sources
(`src/contracts/aave.ts` line 8; overridable via `AAVE_POOL_ADDRESS`). -/
def AAVE_POOL_ADDRESS : String := "0x6Ae43d3271ff6888e7Fc43Fd7321a503ff738951"

/-- Default Compound V3 Comet address used by the TypeScript sources
(compound adapter line 12; overridable via `COMPOUND_COMET_ADDRESS`). -/
def COMPOUND_COMET_ADDRESS : String := "0xAec1F48e02Cfb822Be958B68C7957156EB3F0b6e"

/-- Symbolic ABI calldata.  The source builds `data` with
`ethers.Interface.encodeFunctionData`, which is injective in the function
and its argument list; each constructor records one such invocation with
its arguments (amounts kept as `Nat`: the source passes
`amountToMove.toString()`). -/
inductive CallData
  | aaveWithdraw (asset : String) (amount : Nat) (toAddr : String)
  | compoundWithdraw (asset : String) (amount : Nat)
  | approve (spender : String) (amount : Nat)
  | aaveSupply (asset : String) (amount : Nat) (onBehalfOf : String) (referralCode : Nat)
  | compoundSupply (asset : String) (amount : Nat)
  | safeNonce
deriving DecidableEq, Repr

/-- One `{ to, value, data }` transaction object as produced by
`src/triggerx-yield-optimizer.ts` (`value` is the native-asset amount,
kept as the string the source writes; the source field named `to` is
rendered `toAddress`, `to` being reserved in Lean). -/
structure Tx where
  toAddress : String
  value : String
  data : CallData
deriving DecidableEq, Repr

/-- Embedding of `generatePlaceholderTransaction`
(`src/triggerx-yield-optimizer.ts` lines 55-74): a single no-op call of the
Safe wallet's `nonce()` view function with value `'0'`. -/
def generatePlaceholderTransaction (safeAddress : String) : List Tx :=
  [{ toAddress := safeAddress, value := "0", data := CallData.safeNonce }]

/-- `amountToMove` of `generateRebalanceTransactions`
(`src/triggerx-yield-optimizer.ts` line 106): the whole re-read balance of
the protocol the decision classifies the wallet in
(`yieldData.currentProtocol === 'aave' ? aaveBalance : compoundBalance`). -/
def amountToMoveOf (yieldData : YieldComparison)
    (aaveBalance compoundBalance : Nat) : Nat :=
  if yieldData.currentProtocol = ProtoTag.aave then aaveBalance else compoundBalance

/-- Embedding of `generateRebalanceTransactions`
(`src/triggerx-yield-optimizer.ts` lines 79-184).  The source first awaits
`compareYields()` and then re-reads the two balances; here the decision
record and the two re-read balances are parameters, together with the
`tokenAddress`/`safeAddress` configuration fields.  The body mirrors
lines 87-183: empty list when `shouldMove` is false, `amountToMove` is the
whole re-read balance of the current protocol, empty list when that amount
is zero, then the withdraw / approve / supply pushes in order. -/
def generateRebalanceTransactions (yieldData : YieldComparison)
    (aaveBalance compoundBalance : Nat)
    (tokenAddress safeAddress : String) : List Tx :=
  if yieldData.shouldMove ≠ true then []
  else
    let amountToMove : Nat := amountToMoveOf yieldData aaveBalance compoundBalance
    if amountToMove = 0 then []
    else
      let step1 : List Tx :=
        if yieldData.currentProtocol = ProtoTag.aave then
          [{ toAddress := AAVE_POOL_ADDRESS, value := "0",
             data := CallData.aaveWithdraw tokenAddress amountToMove safeAddress }]
        else if yieldData.currentProtocol = ProtoTag.compound then
          [{ toAddress := COMPOUND_COMET_ADDRESS, value := "0",
             data := CallData.compoundWithdraw tokenAddress amountToMove }]
        else []
      let approveAddress : String :=
        if yieldData.betterProtocol = ProtoTag.aave then AAVE_POOL_ADDRESS
        else COMPOUND_COMET_ADDRESS
      let step2 : List Tx :=
        [{ toAddress := tokenAddress, value := "0",
           data := CallData.approve approveAddress amountToMove }]
      let step3 : List Tx :=
        if yieldData.betterProtocol = ProtoTag.aave then
          [{ toAddress := AAVE_POOL_ADDRESS, value := "0",
             data := CallData.aaveSupply tokenAddress amountToMove safeAddress 0 }]
        else if yieldData.betterProtocol = ProtoTag.compound then
          [{ toAddress := COMPOUND_COMET_ADDRESS, value := "0",
             data := CallData.compoundSupply tokenAddress amountToMove }]
        else []
      step1 ++ step2 ++ step3

/-- Any comparator decision with `shouldMove` set classifies the wallet in
one protocol and the better protocol as the other one. -/
lemma compareYields_move_cases (now a c b1 b2 : Nat) (t : Int)
    (h : (compareYields now a c b1 b2 t).shouldMove = true) :
    ((compareYields now a c b1 b2 t).currentProtocol = ProtoTag.aave
      ∧ (compareYields now a c b1 b2 t).betterProtocol = ProtoTag.compound)
    ∨ ((compareYields now a c b1 b2 t).currentProtocol = ProtoTag.compound
      ∧ (compareYields now a c b1 b2 t).betterProtocol = ProtoTag.aave) := by
  rw [compareYields_shouldMove_iff] at h
  obtain ⟨-, hbe, hcn, hcb⟩ := h
  rw [compareYields_betterProtocol] at hbe hcb ⊢
  rw [compareYields_currentProtocol] at hcn hcb ⊢
  split_ifs at hbe hcn hcb ⊢ <;> simp_all

/-- C2: the plan builder returns an empty transaction list when `shouldMove`
is false or the current protocol's re-read balance (the amount to move) is
zero; otherwise it returns exactly three calls in the fixed order
withdraw-from-current, approve-destination-spender, supply-into-better, all
encoding the same amount, namely the entire balance currently held in the
current protocol. -/
theorem generateRebalanceTransactions_plan_spec
    (now a c b1 b2 : Nat) (t : Int) (aaveBalance compoundBalance : Nat)
    (tokenAddress safeAddress : String) :
    (¬ ((compareYields now a c b1 b2 t).shouldMove = true
        ∧ amountToMoveOf (compareYields now a c b1 b2 t) aaveBalance compoundBalance ≠ 0) →
      generateRebalanceTransactions (compareYields now a c b1 b2 t)
        aaveBalance compoundBalance tokenAddress safeAddress = [])
    ∧ ((compareYields now a c b1 b2 t).shouldMove = true →
       amountToMoveOf (compareYields now a c b1 b2 t) aaveBalance compoundBalance ≠ 0 →
        ((generateRebalanceTransactions (compareYields now a c b1 b2 t)
            aaveBalance compoundBalance tokenAddress safeAddress).length = 3
          ∧ generateRebalanceTransactions (compareYields now a c b1 b2 t)
              aaveBalance compoundBalance tokenAddress safeAddress =
            if (compareYields now a c b1 b2 t).currentProtocol = ProtoTag.aave then
              [{ toAddress := AAVE_POOL_ADDRESS, value := "0",
                 data := CallData.aaveWithdraw tokenAddress
                   (amountToMoveOf (compareYields now a c b1 b2 t) aaveBalance compoundBalance)
                   safeAddress },
               { toAddress := tokenAddress, value := "0",
                 data := CallData.approve COMPOUND_COMET_ADDRESS
                   (amountToMoveOf (compareYields now a c b1 b2 t) aaveBalance compoundBalance) },
               { toAddress := COMPOUND_COMET_ADDRESS, value := "0",
                 data := CallData.compoundSupply tokenAddress
                   (amountToMoveOf (compareYields now a c b1 b2 t) aaveBalance compoundBalance) }]
            else
              [{ toAddress := COMPOUND_COMET_ADDRESS, value := "0",
                 data := CallData.compoundWithdraw tokenAddress
                   (amountToMoveOf (compareYields now a c b1 b2 t) aaveBalance compoundBalance) },
               { toAddress := tokenAddress, value := "0",
                 data := CallData.approve AAVE_POOL_ADDRESS
                   (amountToMoveOf (compareYields now a c b1 b2 t) aaveBalance compoundBalance) },
               { toAddress := AAVE_POOL_ADDRESS, value := "0",
                 data := CallData.aaveSupply tokenAddress
                   (amountToMoveOf (compareYields now a c b1 b2 t) aaveBalance compoundBalance)
                   safeAddress 0 }])) := by
  refine ⟨?_, ?_⟩
  · intro h
    rcases Decidable.not_and_iff_or_not.mp h with hm | ha
    · simp [generateRebalanceTransactions, hm]
    · rw [Decidable.not_not] at ha
      simp only [generateRebalanceTransactions, amountToMoveOf] at ha ⊢
      split_ifs <;> simp_all
  · intro hm ha
    rcases compareYields_move_cases now a c b1 b2 t hm with ⟨hc, hb⟩ | ⟨hc, hb⟩ <;>
      simp_all [generateRebalanceTransactions, amountToMoveOf]

/-- C10: every transaction emitted toward the wallet — each rebalance call
produced by `generateRebalanceTransactions` for any decision record and any
balances, and the placeholder no-op transaction — carries a native-asset
value of exactly `'0'`. -/
theorem emitted_transactions_zero_value
    (yieldData : YieldComparison) (aaveBalance compoundBalance : Nat)
    (tokenAddress safeAddress placeholderSafe : String) :
    ((generateRebalanceTransactions yieldData aaveBalance compoundBalance
        tokenAddress safeAddress).all (fun tx => tx.value == "0")) = true
    ∧ ((generatePlaceholderTransaction placeholderSafe).all
        (fun tx => tx.value == "0")) = true := by
  constructor
  · simp only [generateRebalanceTransactions]
    split_ifs <;> simp_all
  · simp [generatePlaceholderTransaction]

/-- Two-point abstraction of the JavaScript error values the adapters
branch on: the sources test
`error.code === 'BAD_DATA' || error.value === '0x' ||
error.message?.includes('could not decode')` — the unsupported-reserve
condition — and treat every other error uniformly. -/
inductive JsError
  | badData
  | other
deriving DecidableEq, Repr

/-- `ethers.ZeroAddress`. -/
def ZERO_ADDRESS : String := "0x0000000000000000000000000000000000000000"

/-- Exact-arithmetic rendering of the Aave rate conversion
(`src/contracts/aave.ts` line 103):
`Math.floor(Number(liquidityRate) / 1e27 * 10000)`.  The source evaluates
this in IEEE-754 double precision; this definition is its exact integer
counterpart, used only by the error-handling claims, which do not depend on
the numeric value. -/
def aaveRayToBasisPoints (liquidityRate : Nat) : Nat :=
  liquidityRate * 10000 / 10 ^ 27

/-- Exact-arithmetic rendering of the Compound rate conversion (compound
adapter lines 70-73): `secondsPerYear = 365.25 * 24 * 60 * 60 = 31557600`,
`Math.floor(Number(supplyRate) / 1e18 * secondsPerYear * 10000)`.  As with
`aaveRayToBasisPoints`, the source computes in double precision and this is
the exact integer counterpart. -/
def compoundRateToBasisPoints (supplyRate : Nat) : Nat :=
  supplyRate * 31557600 * 10000 / 10 ^ 18

/-- The `try` body of `getAaveAPY` (`src/contracts/aave.ts` lines 33-105).
`reserveTokens` is the awaited `getReserveTokensAddresses` call collapsed to
the extracted `aTokenAddress` (`""` standing for a null/undefined result),
`reserveData` the awaited `getReserveData` call collapsed to the extracted
`liquidityRate`.  Each inner `catch` returns 0 on the unsupported-reserve
condition and re-throws any other error (lines 51-63 and 69-80); a zero or
missing liquidity rate yields 0 (lines 94-97). -/
def getAaveAPYBody (reserveTokens : Except JsError String)
    (reserveData : Except JsError Nat) : Except JsError Nat :=
  match reserveTokens with
  | Except.error e =>
    if e = JsError.badData then Except.ok 0 else Except.error e
  | Except.ok aTokenAddress =>
    if aTokenAddress = "" ∨ aTokenAddress = ZERO_ADDRESS then Except.ok 0
    else
      match reserveData with
      | Except.error e =>
        if e = JsError.badData then Except.ok 0 else Except.error e
      | Except.ok liquidityRate =>
        if liquidityRate = 0 then Except.ok 0
        else Except.ok (aaveRayToBasisPoints liquidityRate)

/-- Embedding of `getAaveAPY` (`src/contracts/aave.ts` lines 32-117): the
body wrapped in the outer `catch` (lines 106-116), whose two branches — the
unsupported-reserve branch and the `console.error` branch for every other
error — both return 0. -/
def getAaveAPY (reserveTokens : Except JsError String)
    (reserveData : Except JsError Nat) : Except JsError Nat :=
  match getAaveAPYBody reserveTokens reserveData with
  | Except.ok v => Except.ok v
  | Except.error e =>
    if e = JsError.badData then Except.ok 0 else Except.ok 0

/-- The `try` body of `getCompoundAPY` (compound adapter lines 40-75).
`code` is the awaited `provider.getCode` result, `utilization` the awaited
`getUtilization` call, and `supplyRate` the awaited `getSupplyRate` call as
a function of the utilization fed into it.  A missing contract (`'0x'`
code) yields 0; the inner `catch` around `getUtilization` returns 0 on ANY
error (lines 58-61); `getSupplyRate` is not separately guarded, so its
errors escape to the outer `catch`. -/
def getCompoundAPYBody (code : Except JsError String)
    (utilization : Except JsError Nat)
    (supplyRate : Nat → Except JsError Nat) : Except JsError Nat :=
  match code with
  | Except.error e => Except.error e
  | Except.ok c =>
    if c = "0x" then Except.ok 0
    else
      match utilization with
      | Except.error _ => Except.ok 0
      | Except.ok u =>
        match supplyRate u with
        | Except.error e => Except.error e
        | Except.ok r => Except.ok (compoundRateToBasisPoints r)

/-- Embedding of `getCompoundAPY` (compound adapter lines 39-80): the body
wrapped in the outer `catch` (lines 76-79), which returns 0 for every
error. -/
def getCompoundAPY (code : Except JsError String)
    (utilization : Except JsError Nat)
    (supplyRate : Nat → Except JsError Nat) : Except JsError Nat :=
  match getCompoundAPYBody code utilization supplyRate with
  | Except.ok v => Except.ok v
  | Except.error _ => Except.ok 0

/-- The `try` body of `getAaveBalance` (`src/contracts/aave.ts` lines
124-197).  `reserveTokens` is the awaited `getReserveTokensAddresses` call
collapsed to the extracted `aTokenAddress` (`""` standing for a
null/undefined result or an unextractable address), `balanceOf` the awaited
aToken `balanceOf` call.  Each inner `catch` returns 0 on the
unsupported-reserve condition and re-throws otherwise (lines 135-144 and
190-197); a missing or zero aToken address yields 0 (lines 148-178). -/
def getAaveBalanceBody (reserveTokens : Except JsError String)
    (balanceOf : Except JsError Nat) : Except JsError Nat :=
  match reserveTokens with
  | Except.error e =>
    if e = JsError.badData then Except.ok 0 else Except.error e
  | Except.ok aTokenAddress =>
    if aTokenAddress = "" ∨ aTokenAddress = ZERO_ADDRESS then Except.ok 0
    else
      match balanceOf with
      | Except.error e =>
        if e = JsError.badData then Except.ok 0 else Except.error e
      | Except.ok balance => Except.ok balance

/-- Embedding of `getAaveBalance` (`src/contracts/aave.ts` lines 119-208):
the body wrapped in the outer `catch` (lines 198-207), whose two branches —
unsupported-reserve and "other errors, return 0 (don't throw to prevent
script failure)" — both return 0. -/
def getAaveBalance (reserveTokens : Except JsError String)
    (balanceOf : Except JsError Nat) : Except JsError Nat :=
  match getAaveBalanceBody reserveTokens balanceOf with
  | Except.ok v => Except.ok v
  | Except.error e =>
    if e = JsError.badData then Except.ok 0 else Except.ok 0

/-- Embedding of `getCompoundBalance` (compound adapter lines 88-105): the
awaited Comet `balanceOf` wrapped in a `catch` that returns 0 for every
error. -/
def getCompoundBalance (balanceOf : Except JsError Nat) : Except JsError Nat :=
  match balanceOf with
  | Except.ok balance => Except.ok balance
  | Except.error _ => Except.ok 0

lemma getAaveAPY_isOk (rt : Except JsError String) (rd : Except JsError Nat) :
    ∃ v, getAaveAPY rt rd = Except.ok v := by
  unfold getAaveAPY
  cases h : getAaveAPYBody rt rd with
  | ok v => exact ⟨v, rfl⟩
  | error e => cases e <;> exact ⟨0, rfl⟩

lemma getAaveAPY_err_left (e : JsError) (rd : Except JsError Nat) :
    getAaveAPY (Except.error e) rd = Except.ok 0 := by
  cases e <;> rfl

lemma getAaveAPY_err_right (a : String) (e : JsError) :
    getAaveAPY (Except.ok a) (Except.error e) = Except.ok 0 := by
  unfold getAaveAPY getAaveAPYBody
  by_cases h : a = "" ∨ a = ZERO_ADDRESS <;> cases e <;> simp [h]

lemma getCompoundAPY_isOk (code : Except JsError String)
    (utilization : Except JsError Nat) (supplyRate : Nat → Except JsError Nat) :
    ∃ v, getCompoundAPY code utilization supplyRate = Except.ok v := by
  unfold getCompoundAPY
  cases h : getCompoundAPYBody code utilization supplyRate with
  | ok v => exact ⟨v, rfl⟩
  | error e => exact ⟨0, rfl⟩

lemma getCompoundAPY_err_code (e : JsError) (utilization : Except JsError Nat)
    (supplyRate : Nat → Except JsError Nat) :
    getCompoundAPY (Except.error e) utilization supplyRate = Except.ok 0 := rfl

lemma getCompoundAPY_err_util (c : String) (e : JsError)
    (supplyRate : Nat → Except JsError Nat) :
    getCompoundAPY (Except.ok c) (Except.error e) supplyRate = Except.ok 0 := by
  unfold getCompoundAPY getCompoundAPYBody
  by_cases h : c = "0x" <;> simp [h]

lemma getCompoundAPY_err_rate (c : String) (u : Nat)
    (supplyRate : Nat → Except JsError Nat) (e : JsError)
    (h : supplyRate u = Except.error e) :
    getCompoundAPY (Except.ok c) (Except.ok u) supplyRate = Except.ok 0 := by
  unfold getCompoundAPY getCompoundAPYBody
  by_cases hc : c = "0x" <;> simp [hc, h]

lemma getAaveBalance_isOk (rt : Except JsError String) (b : Except JsError Nat) :
    ∃ v, getAaveBalance rt b = Except.ok v := by
  unfold getAaveBalance
  cases h : getAaveBalanceBody rt b with
  | ok v => exact ⟨v, rfl⟩
  | error e => cases e <;> exact ⟨0, rfl⟩

lemma getAaveBalance_err_left (e : JsError) (b : Except JsError Nat) :
    getAaveBalance (Except.error e) b = Except.ok 0 := by
  cases e <;> rfl

lemma getAaveBalance_err_right (a : String) (e : JsError) :
    getAaveBalance (Except.ok a) (Except.error e) = Except.ok 0 := by
  unfold getAaveBalance getAaveBalanceBody
  by_cases h : a = "" ∨ a = ZERO_ADDRESS <;> cases e <;> simp [h]

lemma getCompoundBalance_isOk (b : Except JsError Nat) :
    ∃ v, getCompoundBalance b = Except.ok v := by
  cases b with
  | ok v => exact ⟨v, rfl⟩
  | error e => exact ⟨0, rfl⟩

lemma getCompoundBalance_err (e : JsError) :
    getCompoundBalance (Except.error e) = Except.ok 0 := rfl

/-- C3 counterexample: a network/RPC failure — an error that is NOT the
unsupported-reserve (`BAD_DATA`/empty-response) condition — on the very
first read of each rate adapter is not propagated to the caller: both
`getAaveAPY` and `getCompoundAPY` recover locally and return rate 0. -/
theorem rate_adapter_network_error_recovered_cex :
    getAaveAPY (Except.error JsError.other) (Except.ok 42) = Except.ok 0
    ∧ getCompoundAPY (Except.error JsError.other) (Except.ok 5)
        (fun _ => Except.ok 7) = Except.ok 0 := ⟨rfl, rfl⟩

/-- C3 (amended): each rate adapter recovers EVERY read failure locally and
returns a rate value instead of propagating: the result is always an
ordinary value, it is 0 whenever any constituent read fails (whether the
failure is the unsupported-reserve condition or a network/other error), and
no failed decision cycle is ever signalled by the adapters. -/
theorem rate_adapters_recover_all_failures :
    (∀ rt rd, ∃ v, getAaveAPY rt rd = Except.ok v)
    ∧ (∀ e rd, getAaveAPY (Except.error e) rd = Except.ok 0)
    ∧ (∀ a e, getAaveAPY (Except.ok a) (Except.error e) = Except.ok 0)
    ∧ (∀ code utilization supplyRate,
        ∃ v, getCompoundAPY code utilization supplyRate = Except.ok v)
    ∧ (∀ e utilization supplyRate,
        getCompoundAPY (Except.error e) utilization supplyRate = Except.ok 0)
    ∧ (∀ c e supplyRate,
        getCompoundAPY (Except.ok c) (Except.error e) supplyRate = Except.ok 0)
    ∧ (∀ c u supplyRate e, supplyRate u = Except.error e →
        getCompoundAPY (Except.ok c) (Except.ok u) supplyRate = Except.ok 0) :=
  ⟨getAaveAPY_isOk, getAaveAPY_err_left, getAaveAPY_err_right,
    getCompoundAPY_isOk, getCompoundAPY_err_code, getCompoundAPY_err_util,
    getCompoundAPY_err_rate⟩

/-- C9: for every error raised during a rate or balance read — including
network errors, not only the unsupported-reserve case — `getAaveAPY` and
`getCompoundAPY` return 0 and `getAaveBalance` and `getCompoundBalance`
return 0; none of the four adapter functions ever propagates an exception
to its caller. -/
theorem adapters_never_throw :
    (∀ rt rd, ∃ v, getAaveAPY rt rd = Except.ok v)
    ∧ (∀ e rd, getAaveAPY (Except.error e) rd = Except.ok 0)
    ∧ (∀ a e, getAaveAPY (Except.ok a) (Except.error e) = Except.ok 0)
    ∧ (∀ code utilization supplyRate,
        ∃ v, getCompoundAPY code utilization supplyRate = Except.ok v)
    ∧ (∀ e utilization supplyRate,
        getCompoundAPY (Except.error e) utilization supplyRate = Except.ok 0)
    ∧ (∀ c e supplyRate,
        getCompoundAPY (Except.ok c) (Except.error e) supplyRate = Except.ok 0)
    ∧ (∀ c u supplyRate e, supplyRate u = Except.error e →
        getCompoundAPY (Except.ok c) (Except.ok u) supplyRate = Except.ok 0)
    ∧ (∀ rt b, ∃ v, getAaveBalance rt b = Except.ok v)
    ∧ (∀ e b, getAaveBalance (Except.error e) b = Except.ok 0)
    ∧ (∀ a e, getAaveBalance (Except.ok a) (Except.error e) = Except.ok 0)
    ∧ (∀ b, ∃ v, getCompoundBalance b = Except.ok v)
    ∧ (∀ e, getCompoundBalance (Except.error e) = Except.ok 0) :=
  ⟨getAaveAPY_isOk, getAaveAPY_err_left, getAaveAPY_err_right,
    getCompoundAPY_isOk, getCompoundAPY_err_code, getCompoundAPY_err_util,
    getCompoundAPY_err_rate, getAaveBalance_isOk, getAaveBalance_err_left,
    getAaveBalance_err_right, getCompoundBalance_isOk, getCompoundBalance_err⟩

/-- Big-endian value of a byte list (each entry one byte), most significant
byte first. -/
def fromBeBytes (bs : List Nat) : Nat :=
  bs.foldl (fun acc b => 256 * acc + b) 0

/-- `beBytes n v` is the Solidity fixed-width encoding of `v` on exactly
`n` bytes, big-endian, truncating higher bytes (the semantics of
`abi.encodePacked` on a `uintN`/`address` operand). -/
def beBytes : Nat → Nat → List Nat
  | 0, _ => []
  | n + 1, v => beBytes n (v / 256) ++ [v % 256]

lemma beBytes_length (n v : Nat) : (beBytes n v).length = n := by
  induction n generalizing v with
  | zero => rfl
  | succ n ih => simp [beBytes, ih]

lemma mod_mul_base (q r m : Nat) (hm : 0 < m) (hr : r < 256) :
    (256 * q + r) % (256 * m) = 256 * (q % m) + r := by
  have hq : q % m < m := Nat.mod_lt q hm
  have h2 : 256 * (q % m) + 256 ≤ 256 * m := by
    have h3 : q % m + 1 ≤ m := Nat.succ_le_of_lt hq
    calc 256 * (q % m) + 256 = 256 * (q % m + 1) := by ring
      _ ≤ 256 * m := Nat.mul_le_mul_left 256 h3
  have h1 : (256 * q) % (256 * m) = 256 * (q % m) := Nat.mul_mod_mul_left 256 q m
  have hr2 : r % (256 * m) = r := Nat.mod_eq_of_lt (by omega)
  calc (256 * q + r) % (256 * m)
      = ((256 * q) % (256 * m) + r % (256 * m)) % (256 * m) := by
        rw [Nat.add_mod]
    _ = (256 * (q % m) + r) % (256 * m) := by rw [h1, hr2]
    _ = 256 * (q % m) + r := Nat.mod_eq_of_lt (by omega)

lemma fromBeBytes_mul_add (xs : List Nat) (b : Nat) :
    fromBeBytes (xs ++ [b]) = 256 * fromBeBytes xs + b := by
  simp [fromBeBytes, List.foldl_append]

lemma fromBeBytes_beBytes (n v : Nat) :
    fromBeBytes (beBytes n v) = v % 256 ^ n := by
  induction n generalizing v with
  | zero => simp [beBytes, fromBeBytes, Nat.mod_one]
  | succ n ih =>
    rw [beBytes, fromBeBytes_mul_add, ih]
    have h1 : (256 : Nat) ^ (n + 1) = 256 * 256 ^ n := by ring
    have h2 : v = 256 * (v / 256) + v % 256 := (Nat.div_add_mod v 256).symm
    rw [h1]
    conv_rhs => rw [h2]
    exact (mod_mul_base (v / 256) (v % 256) (256 ^ n) (by positivity)
      (Nat.mod_lt v (by norm_num))).symm

/-- One inner call of a MultiSend batch: target address, native-asset
value and calldata payload, as assembled by `_buildAaveSupplyMultiSend`
(`foundry/script/SafeModuleAaveSupply.s.sol`). -/
structure SolCall where
  target : Nat
  value : Nat
  payload : List Nat
deriving DecidableEq, Repr

/-- Packed encoding of one call, mirroring
`abi.encodePacked(uint8(CALL), to, value, dataLength, data)` of
`_buildAaveSupplyMultiSend` (lines 206-220): a 1-byte operation tag fixed
to the direct-call value `0`, the 20-byte target address, the value on 32
bytes big-endian, the payload length on 32 bytes big-endian, then the raw
payload bytes. -/
def encodeSolTx (c : SolCall) : List Nat :=
  0 :: (beBytes 20 c.target ++ beBytes 32 c.value ++
    beBytes 32 c.payload.length ++ c.payload)

/-- Packed encoding of an ordered call list: the per-call encodings
concatenated in order with no separators
(`abi.encodePacked(tx1, tx2)`, line 222, generalized to any number of
calls as in the spec's Atomic Batch Encoder). -/
def encodeBatch : List SolCall → List Nat
  | [] => []
  | c :: cs => encodeSolTx c ++ encodeBatch cs

/-- Right-padding with zero bytes to a multiple of 32, as Solidity
`abi.encode` applies to a dynamic `bytes` tail. -/
def padRight32 (bs : List Nat) : List Nat :=
  bs ++ List.replicate ((32 - bs.length % 32) % 32) 0

/-- Solidity `abi.encode` of a single dynamic `bytes` argument: a 32-byte
offset (always 0x20 for one argument), the 32-byte byte-length, then the
bytes padded to a 32-byte boundary. -/
def abiEncodeBytes (bs : List Nat) : List Nat :=
  beBytes 32 32 ++ beBytes 32 bs.length ++ padRight32 bs

/-- 4-byte selector of `multiSend(bytes)`. -/
def multiSend_selector : List Nat := [0x8d, 0x80, 0xff, 0x0a]

/-- `abi.encodeWithSelector(IMultiSendCallOnly.multiSend.selector,
transactions)` (lines 225-228): the packed batch wrapped as the single
argument of one `multiSend` invocation. -/
def wrapMultiSend (transactions : List Nat) : List Nat :=
  multiSend_selector ++ abiEncodeBytes transactions

/-- `MULTISEND_CALL_ONLY` (script line 51): the batch-executor address. -/
def MULTISEND_CALL_ONLY : Nat := 0x9641d764fc13c8B624c04430C7356C1C7C8102e2

/-- `AAVE_POOL_ADDRESS` of the script (line 55): Aave V3 Pool on Arbitrum. -/
def AAVE_POOL_ARBITRUM : Nat := 0x794a61358D6845594F94dc1DB02A252b5b4814aD

/-- `USDC_ADDRESS` of the script (line 59). -/
def USDC_ARBITRUM : Nat := 0xaf88d065e77c8cC2239327C5EDb3A432268e5831

/-- `SUPPLY_AMOUNT` of the script (line 65): 100 USDC, 6 decimals. -/
def SUPPLY_AMOUNT : Nat := 100 * 1000000

/-- 4-byte selector of `IERC20.approve(address,uint256)`. -/
def IERC20_approve_selector : List Nat := [0x09, 0x5e, 0xa7, 0xb3]

/-- 4-byte selector of
`IAavePool.supply(address,uint256,address,uint16)`. -/
def IAavePool_supply_selector : List Nat := [0x61, 0x7b, 0xa0, 0x37]

/-- `abi.encodeWithSelector(IERC20.approve.selector, AAVE_POOL_ADDRESS,
SUPPLY_AMOUNT)` (script lines 187-191): each static argument ABI-encoded
on 32 bytes. -/
def approveData : List Nat :=
  IERC20_approve_selector ++ beBytes 32 AAVE_POOL_ARBITRUM ++
    beBytes 32 SUPPLY_AMOUNT

/-- `abi.encodeWithSelector(IAavePool.supply.selector, USDC_ADDRESS,
SUPPLY_AMOUNT, SAFE_WALLET_ADDRESS, uint16(0))` (script lines 194-200). -/
def supplyData (safeWallet : Nat) : List Nat :=
  IAavePool_supply_selector ++ beBytes 32 USDC_ARBITRUM ++
    beBytes 32 SUPPLY_AMOUNT ++ beBytes 32 safeWallet ++ beBytes 32 0

/-- Embedding of `_buildAaveSupplyMultiSend` (script lines 183-237): the
two packed transactions `tx1` (approve on USDC) and `tx2` (supply on the
Aave pool), concatenated and wrapped in a `multiSend(bytes)` invocation.
The Safe wallet address is a parameter (`vm.envAddress`, line 75). -/
def _buildAaveSupplyMultiSend (safeWallet : Nat) : List Nat :=
  let tx1 : List Nat :=
    0 :: (beBytes 20 USDC_ARBITRUM ++ beBytes 32 0 ++
      beBytes 32 approveData.length ++ approveData)
  let tx2 : List Nat :=
    0 :: (beBytes 20 AAVE_POOL_ARBITRUM ++ beBytes 32 0 ++
      beBytes 32 (supplyData safeWallet).length ++ supplyData safeWallet)
  let transactions := tx1 ++ tx2
  multiSend_selector ++ abiEncodeBytes transactions

/-- The module execution call issued by `_executeViaModule` (script lines
249-299): `execTransactionFromModule(MULTISEND_CALL_ONLY, 0,
multiSendCalldata, DELEGATECALL)`. -/
structure ModuleExecCall where
  target : Nat
  value : Nat
  data : List Nat
  operation : Nat
deriving DecidableEq, Repr

/-- Embedding of the argument tuple passed by `_executeViaModule` (script
lines 270-275). -/
def _executeViaModule (multiSendCalldata : List Nat) : ModuleExecCall :=
  { target := MULTISEND_CALL_ONLY, value := 0,
    data := multiSendCalldata, operation := 1 }

/-- Matching parser for the packed MultiSend batch format: reads the
1-byte tag (which must be the direct-call value 0), the 20-byte target,
the 32-byte value, the 32-byte payload length and then that many payload
bytes, repeatedly until the input is exhausted; rejects truncated input. -/
def decodeBatch : List Nat → Option (List SolCall)
  | [] => some []
  | op :: rest =>
    let len := fromBeBytes (((rest.drop 20).drop 32).take 32)
    if op = 0 ∧ 84 + len ≤ rest.length then
      match decodeBatch ((((rest.drop 20).drop 32).drop 32).drop len) with
      | some calls =>
        some ({ target := fromBeBytes (rest.take 20),
                value := fromBeBytes ((rest.drop 20).take 32),
                payload := (((rest.drop 20).drop 32).drop 32).take len } :: calls)
      | none => none
    else none
termination_by bs => bs.length
decreasing_by
  simp only [List.length_drop, List.length_cons]
  omega

lemma decodeBatch_cons (t v : Nat) (p E : List Nat)
    (h1 : t < 256 ^ 20) (h2 : v < 256 ^ 32) (h3 : p.length < 256 ^ 32) :
    decodeBatch (encodeSolTx ⟨t, v, p⟩ ++ E) =
      match decodeBatch E with
      | some calls => some (⟨t, v, p⟩ :: calls)
      | none => none := by
  have e1 : encodeSolTx ⟨t, v, p⟩ ++ E =
      0 :: (beBytes 20 t ++ (beBytes 32 v ++ (beBytes 32 p.length ++ (p ++ E)))) := by
    simp [encodeSolTx, List.append_assoc]
  set rest : List Nat :=
    beBytes 20 t ++ (beBytes 32 v ++ (beBytes 32 p.length ++ (p ++ E))) with hrest
  have d20 : rest.drop 20 = beBytes 32 v ++ (beBytes 32 p.length ++ (p ++ E)) := by
    rw [hrest]
    exact List.drop_left' (beBytes_length 20 t)
  have d52 : (rest.drop 20).drop 32 = beBytes 32 p.length ++ (p ++ E) := by
    rw [d20]
    exact List.drop_left' (beBytes_length 32 v)
  have lenEq : fromBeBytes (((rest.drop 20).drop 32).take 32) = p.length := by
    rw [d52, List.take_left' (beBytes_length 32 p.length), fromBeBytes_beBytes,
      Nat.mod_eq_of_lt h3]
  have d84 : ((rest.drop 20).drop 32).drop 32 = p ++ E := by
    rw [d52]
    exact List.drop_left' (beBytes_length 32 p.length)
  have hlen : rest.length = 84 + p.length + E.length := by
    rw [hrest]
    simp [beBytes_length]
    omega
  have tgt : fromBeBytes (rest.take 20) = t := by
    rw [hrest, List.take_left' (beBytes_length 20 t), fromBeBytes_beBytes,
      Nat.mod_eq_of_lt h1]
  have val : fromBeBytes ((rest.drop 20).take 32) = v := by
    rw [d20, List.take_left' (beBytes_length 32 v), fromBeBytes_beBytes,
      Nat.mod_eq_of_lt h2]
  have pay : (((rest.drop 20).drop 32).drop 32).take p.length = p := by
    rw [d84]
    exact List.take_left' rfl
  have rem : (((rest.drop 20).drop 32).drop 32).drop p.length = E := by
    rw [d84]
    exact List.drop_left' rfl
  rw [e1, decodeBatch]
  simp only [lenEq, tgt, val, pay, rem, hlen]
  rw [if_pos (⟨trivial, by omega⟩ : True ∧ 84 + p.length ≤ 84 + p.length + E.length)]

/-- C5: the batch encoder produces, for each call in input order, exactly
the concatenation tag(1 byte, fixed to the direct-call value 0) ++
target(20 bytes) ++ value(32-byte big-endian) ++ payload-length(32-byte
big-endian) ++ payload, with the per-call encodings concatenated in order
with no separators; the concrete script builder
`_buildAaveSupplyMultiSend` is exactly this encoder applied to its
approve/supply call pair wrapped as the single argument of one
`multiSend(bytes)` invocation, and the wrapped calldata is submitted to
the batch-executor address `MULTISEND_CALL_ONLY`. -/
theorem encodeBatch_layout_spec (c : SolCall) (cs : List SolCall) (safeWallet : Nat) :
    encodeBatch ([] : List SolCall) = ([] : List Nat)
    ∧ encodeBatch (c :: cs) = encodeSolTx c ++ encodeBatch cs
    ∧ encodeSolTx c =
        0 :: (beBytes 20 c.target ++ beBytes 32 c.value ++
          beBytes 32 c.payload.length ++ c.payload)
    ∧ (beBytes 20 c.target).length = 20
    ∧ (beBytes 32 c.value).length = 32
    ∧ (beBytes 32 c.payload.length).length = 32
    ∧ fromBeBytes (beBytes 20 c.target) = c.target % 256 ^ 20
    ∧ fromBeBytes (beBytes 32 c.value) = c.value % 256 ^ 32
    ∧ _buildAaveSupplyMultiSend safeWallet =
        wrapMultiSend (encodeBatch
          [⟨USDC_ARBITRUM, 0, approveData⟩,
           ⟨AAVE_POOL_ARBITRUM, 0, supplyData safeWallet⟩])
    ∧ (_executeViaModule (_buildAaveSupplyMultiSend safeWallet)).target =
        MULTISEND_CALL_ONLY
    ∧ (_executeViaModule (_buildAaveSupplyMultiSend safeWallet)).data =
        _buildAaveSupplyMultiSend safeWallet := by
  refine ⟨rfl, rfl, rfl, beBytes_length 20 c.target, beBytes_length 32 c.value,
    beBytes_length 32 c.payload.length, fromBeBytes_beBytes 20 c.target,
    fromBeBytes_beBytes 32 c.value, ?_, rfl, rfl⟩
  simp [_buildAaveSupplyMultiSend, wrapMultiSend, encodeBatch, encodeSolTx,
    List.append_assoc]

/-- C6: decoding an encoded batch with the matching parser recovers the
original ordered call list byte-for-byte, for any number of calls (with
each call's fields within their Solidity widths: `address` below `2^160`,
`uint256` below `2^256`); the empty list encodes to the empty byte
string. -/
theorem encodeBatch_decodeBatch_roundtrip (cs : List SolCall)
    (h : ∀ call ∈ cs, call.target < 256 ^ 20 ∧ call.value < 256 ^ 32
      ∧ call.payload.length < 256 ^ 32) :
    encodeBatch ([] : List SolCall) = ([] : List Nat)
    ∧ decodeBatch (encodeBatch cs) = some cs := by
  have main : ∀ ds : List SolCall,
      (∀ call ∈ ds, call.target < 256 ^ 20 ∧ call.value < 256 ^ 32
        ∧ call.payload.length < 256 ^ 32) →
      decodeBatch (encodeBatch ds) = some ds := by
    intro ds
    induction ds with
    | nil =>
      intro _
      rw [show encodeBatch ([] : List SolCall) = ([] : List Nat) from rfl, decodeBatch]
    | cons c cs ih =>
      intro hd
      obtain ⟨hc1, hc2, hc3⟩ := hd c (List.mem_cons_self c cs)
      have hcs := fun call hm => hd call (List.mem_cons_of_mem c hm)
      obtain ⟨t, v, p⟩ := c
      rw [show encodeBatch (⟨t, v, p⟩ :: cs) = encodeSolTx ⟨t, v, p⟩ ++ encodeBatch cs
        from rfl]
      rw [decodeBatch_cons t v p (encodeBatch cs) hc1 hc2 hc3, ih hcs]
  exact ⟨rfl, main cs h⟩

/-- C6 witness: the round trip evaluated on a concrete two-call batch. -/
theorem encodeBatch_decodeBatch_roundtrip_witness :
    encodeBatch ([] : List SolCall) = ([] : List Nat)
    ∧ decodeBatch (encodeBatch [⟨5, 7, [1, 2, 3]⟩, ⟨9, 0, []⟩]) =
        some [⟨5, 7, [1, 2, 3]⟩, ⟨9, 0, []⟩] :=
  encodeBatch_decodeBatch_roundtrip [⟨5, 7, [1, 2, 3]⟩, ⟨9, 0, []⟩] (by decide)
